import Mathlib

/-!
Verification of the Text-to-Speech voice-agent pipeline.

Shallow embedding of the extraction, language-detection and synthesis
orchestration code.  External engines (gTTS, pyttsx3, EasyOCR, pytesseract,
langdetect) are opaque capabilities; their per-call outcomes are passed in
as explicit parameters.  Files are represented by their content (a `String`)
or by `(path, size)` records; `os.path.getsize` is the content length.
The md5 cache fingerprint is modelled as the text itself (a deterministic,
collision-free fingerprint).  Machine floats appear only in the
language-confidence formula, which is exact decimal arithmetic modelled in `ℚ`.
-/

/-- The characters Python's `str.strip()` removes (ASCII whitespace). -/
def isPyWhite (c : Char) : Bool :=
  c == ' ' || c == '\t' || c == '\n' || c == '\x0d' || c == '\x0b' || c == '\x0c'

/-- Drop a leading run of whitespace, as the left half of `str.strip()`. -/
def stripLeading (l : List Char) : List Char := l.dropWhile isPyWhite

/-- Drop a trailing run of whitespace, as the right half of `str.strip()`. -/
def stripTrailing : List Char → List Char
  | [] => []
  | c :: cs =>
    if stripTrailing cs = [] && isPyWhite c then [] else c :: stripTrailing cs

/-- Python `str.strip()` on a character list. -/
def trimChars (l : List Char) : List Char := stripTrailing (stripLeading l)

/-- Python `text.strip()`. -/
def pyStrip (s : String) : String := String.mk (trimChars s.data)

/-- Replace every maximal run of characters satisfying `p` by the single
character `r`; embeds Python `re.sub(r"[ \t]+", " ", ·)` and
`re.sub(r"\n+", "\n", ·)`. -/
def collapseBy (p : Char → Bool) (r : Char) : List Char → List Char
  | [] => []
  | [c] => if p c then [r] else [c]
  | c :: d :: cs =>
    if p c then
      if p d then collapseBy p r (d :: cs)
      else r :: collapseBy p r (d :: cs)
    else c :: collapseBy p r (d :: cs)

/-- `clean_text` from `combined_module_01.py` / `final_ocr_pipeline.py` /
`module2_py.py`: collapse space-tab runs to one space, collapse newline runs
to one newline, then strip. -/
def clean_text (s : String) : String :=
  pyStrip (String.mk
    (collapseBy (fun c => c == '\n') '\n'
      (collapseBy (fun c => c == ' ' || c == '\t') ' ' s.data)))

/-- Python `"\n".join(xs)`. -/
def joinNl : List String → String
  | [] => ""
  | [s] => s
  | s :: rest => s ++ "\n" ++ joinNl rest

/-- Python `s.endswith(suffix)`. -/
def pyEndsWith (s suf : String) : Bool :=
  suf.data.reverse.isPrefixOf s.data.reverse

/-- Python `s.replace(pat, rep)` (all occurrences, left to right), fuelled by
the length of the subject so the recursion is structural. -/
def replaceAllAux (pat rep : List Char) : Nat → List Char → List Char
  | 0, l => l
  | _ + 1, [] => []
  | n + 1, c :: cs =>
    if pat.isPrefixOf (c :: cs) then rep ++ replaceAllAux pat rep n ((c :: cs).drop pat.length)
    else c :: replaceAllAux pat rep n cs

/-- Python `s.replace(pat, rep)` for a non-empty pattern. -/
def pyReplace (s pat rep : String) : String :=
  if pat.data.isEmpty then s
  else String.mk (replaceAllAux pat.data rep.data s.data.length s.data)

/-! ## PDF extraction (claim C1)

A PDF page is represented by the text the text-layer query would return
(`textLayer`, with `""` standing for `None`/no text) and the text the OCR
engine would return for a 300-DPI rendering of that page (`ocrText`,
already joined with `"\n"` as the code does with `reader.readtext` output). -/

structure PdfPage where
  textLayer : String
  ocrText : String
deriving DecidableEq

/-- The per-page body of the loop in `final_ocr_pipeline.extract_text_from_pdf`:
`page_text = page.get_text()`, and if `not page_text.strip()` the OCR result of
the 300-DPI rendering is substituted. -/
def fop_pageText (p : PdfPage) : String :=
  if pyStrip p.textLayer = "" then p.ocrText else p.textLayer

/-- The accumulation loop of `final_ocr_pipeline.extract_text_from_pdf`:
`full_text.append(page_text)` in document order. -/
def fop_loop : List PdfPage → List String → List String
  | [], acc => acc
  | p :: ps, acc => fop_loop ps (acc ++ [fop_pageText p])

/-- `extract_text_from_pdf` from `final_ocr_pipeline.py`. -/
def fop_extract_text_from_pdf (doc : List PdfPage) : String :=
  clean_text (joinNl (fop_loop doc []))

/-- The pdfplumber loop of `combined_module_01.extract_text_from_pdf`:
`if page_text: full_text.append(page_text)` (truthiness: non-empty string). -/
def cm_textLoop : List PdfPage → List String → List String
  | [], acc => acc
  | p :: ps, acc =>
    cm_textLoop ps (if p.textLayer ≠ "" then acc ++ [p.textLayer] else acc)

/-- The OCR loop of `combined_module_01.extract_text_from_pdf`: every page is
rendered at 300 DPI and OCRed, regardless of its text layer. -/
def cm_ocrLoop : List PdfPage → List String → List String
  | [], acc => acc
  | p :: ps, acc => cm_ocrLoop ps (acc ++ [p.ocrText])

/-- `extract_text_from_pdf` from `combined_module_01.py`: first collect the
truthy text layers of all pages; if any were found return them joined,
otherwise OCR every page. -/
def cm_extract_text_from_pdf (doc : List PdfPage) : String :=
  let full_text := cm_textLoop doc []
  if full_text ≠ [] then clean_text (joinNl full_text)
  else clean_text (joinNl (cm_ocrLoop doc []))

/-- Modelled from the spec's words for claim C1 (the claimed behaviour, to be
compared with the two source functions): each page whose text layer is
non-empty after trimming contributes that text, every other page contributes
the OCR of its 300-DPI rendering, concatenated in document order. -/
def specC1_perPageExtract (doc : List PdfPage) : String :=
  clean_text (joinNl (doc.map fop_pageText))

/-! ## Language detection (claims C7, C8)

`langdetect.detect` is an opaque classifier; its outcome on the input is the
parameter `oracle` (`Except.error ()` models `LangDetectException`). -/

/-- The characters of the probe string
`'ابتثجحخدذرزسشصضطظعغفقکگلمنوہی'` in `app.py`'s `detect_language`. -/
def urduProbeChars : List Char :=
  ['ا', 'ب', 'ت', 'ث', 'ج', 'ح', 'خ', 'د', 'ذ', 'ر', 'ز', 'س', 'ش', 'ص',
   'ض', 'ط', 'ظ', 'ع', 'غ', 'ف', 'ق', 'ک', 'گ', 'ل', 'م', 'ن', 'و', 'ہ', 'ی']

/-- `any(char in text for char in 'ابت…')` from `app.py`. -/
def hasUrduProbeChar (t : String) : Bool :=
  urduProbeChars.any (fun c => t.data.contains c)

structure LangResult where
  language : String
  confidence : ℚ
deriving DecidableEq

/-- The `/detect-language` endpoint of `app.py`: strip the text, reject empty
input, otherwise classify; a classifier exception yields `("en", 0.50)`; a
`hi`/`ar` proposal with an Urdu probe character present is overridden to `ur`;
anything still outside `{en, ur}` is clamped to `("en", 0.60)`. -/
def detectLanguageEndpoint (text : String) (oracle : Except Unit String) :
    Except String LangResult :=
  let t := pyStrip text
  if t = "" then .error "No text provided"
  else
    match oracle with
    | .error _ => .ok ⟨"en", 1/2⟩
    | .ok lg0 =>
      let conf : ℚ := min (95/100) (70/100 + ((min t.length 1000 : ℚ) / 1000) * (25/100))
      let lg := if (lg0 == "hi" || lg0 == "ar") && hasUrduProbeChar t then "ur" else lg0
      if lg == "en" || lg == "ur" then .ok ⟨lg, conf⟩ else .ok ⟨"en", 60/100⟩

/-- `TextProcessor.detect_language` from `module2_py.py`: the classifier's
answer, or `"en"` when it raises. -/
def tp_detect_language (oracle : Except Unit String) : String :=
  match oracle with
  | .ok l => l
  | .error _ => "en"

/-- Single-character replacement (Python `str.replace` with one-char pattern
and replacement). -/
def replaceChar (a b : Char) (s : String) : String :=
  String.mk (s.data.map (fun c => if c = a then b else c))

/-- `TextProcessor.prepare_text_for_tts` from `module2_py.py`: detect, then
Urdu-specific punctuation canonicalization or English newline flattening;
any non-`ur` detection is renamed to `"en"`. -/
def prepare_text_for_tts (text : String) (oracle : Except Unit String) :
    String × String :=
  let lang := tp_detect_language oracle
  if lang = "ur" then
    ("ur", pyStrip (replaceChar '\n' ' ' (replaceChar '،' ',' (replaceChar '۔' '.' text))))
  else
    ("en", pyStrip (replaceChar '\n' ' ' text))

/-! ## Image OCR configuration selection (claim C9)

One `OcrAttempt` per entry of `language_configs` in
`text_extractor.extract_text_from_image`: `text = none` models
`image_to_string` raising (the `except … continue`), `confData = none` models
`image_to_data` raising (the inner `except` that falls back to text length). -/

structure OcrAttempt where
  text : Option String
  confData : Option (List Int)
deriving DecidableEq

/-- `avg_confidence`: the mean of the strictly positive entries of
`data['conf']`, `0` when there are none. -/
def avgConf (confs : List Int) : ℚ :=
  let pos := confs.filter (fun c => 0 < c)
  if pos.length = 0 then 0 else ((pos.sum : Int) : ℚ) / (pos.length : ℚ)

/-- One iteration of the `for lang, config in language_configs` loop, acting on
the accumulator `(best_text, best_confidence)`. -/
def ocrStep (best : String × ℚ) (o : OcrAttempt) : String × ℚ :=
  match o.text with
  | none => best
  | some t =>
    if pyStrip t = "" then best
    else
      match o.confData with
      | some confs => if best.2 < avgConf confs then (t, avgConf confs) else best
      | none => if (pyStrip best.1).length < (pyStrip t).length then (t, best.2) else best

/-- The selection portion of `text_extractor.extract_text_from_image`
(lines 104–140): fold the configuration outcomes over `("", 0)` and fail with
the `No text detected` message when the final best text is empty. -/
def selectOcrText (attempts : List OcrAttempt) : Except String String :=
  let best := attempts.foldl ocrStep ("", 0)
  if pyStrip best.1 = "" then
    .error "No text detected in image with any language configuration"
  else .ok best.1

/-- Modelled from the spec's words for claim C9: the measured configurations,
as `(text, average-confidence)` pairs in attempt order (skipping the ones the
code skips: no text, or whitespace-only text). -/
def measuredPairs (l : List OcrAttempt) : List (String × ℚ) :=
  l.filterMap (fun o =>
    match o.text, o.confData with
    | some t, some confs => if pyStrip t = "" then none else some (t, avgConf confs)
    | _, _ => none)

/-- The strict-improvement step the code applies between measured
configurations. -/
def pairStep (b p : String × ℚ) : String × ℚ := if b.2 < p.2 then p else b

/-- Running maximum of the measured average confidences, seeded with `b`. -/
def runMax (ps : List (String × ℚ)) (b : ℚ) : ℚ :=
  ps.foldl (fun m p => max m p.2) b

/-! ## English online TTS with cache (claims C2, C3, C4)

The cache directory `tts_cache_english` is an association list from fingerprint
to cached file content; `os.path.getsize` is the content length.  Each entry of
`attempts` is the outcome of one `gTTS(...).save(...)` invocation: the produced
file content, or the exception it raised (which also covers the timeout check
and the file-not-created check). -/

/-- Look a fingerprint up in the cache directory. -/
def cacheLookup : List (String × String) → String → Option String
  | [], _ => none
  | (k, v) :: rest, key => if k = key then some v else cacheLookup rest key

/-- `shutil.copy2(output_path, cached_file)`: (over)write the entry for `key`. -/
def cachePut (c : List (String × String)) (key v : String) : List (String × String) :=
  (key, v) :: c.filter (fun e => e.1 ≠ key)

/-- Decidable equality for `Except`, needed to evaluate concrete outcomes. -/
def exceptDecEq {ε α : Type} [DecidableEq ε] [DecidableEq α] :
    DecidableEq (Except ε α) := fun x y =>
  match x, y with
  | .ok a, .ok b =>
    if h : a = b then .isTrue (by rw [h])
    else .isFalse (fun hc => h (Except.ok.inj hc))
  | .error a, .error b =>
    if h : a = b then .isTrue (by rw [h])
    else .isFalse (fun hc => h (Except.error.inj hc))
  | .ok _, .error _ => .isFalse (fun hc => Except.noConfusion hc)
  | .error _, .ok _ => .isFalse (fun hc => Except.noConfusion hc)

instance {ε α : Type} [DecidableEq ε] [DecidableEq α] : DecidableEq (Except ε α) :=
  exceptDecEq

structure EnglishOnlineEnv where
  netUp : Bool
  attempts : List (Except String String)

/-- Outcome of one `english_online_tts` call: the result (produced file content
or the raised message), the cache directory afterwards, how many gTTS
invocations were made, and whether the result came from the cache. -/
structure EngOutcome where
  result : Except String String
  cacheAfter : List (String × String)
  engineCalls : Nat
  fromCache : Bool
deriving DecidableEq

/-- The `for attempt in range(max_retries)` loop of `english_online_tts`:
each gTTS attempt is validated (non-empty, at least 500 bytes); a valid result
is copied into the cache and returned; exhaustion raises
`TTS failed after 3 attempts`. -/
def engAttemptLoop : Nat → List (Except String String) → String →
    List (String × String) → Nat → String → EngOutcome
  | 0, _, _, cache, calls, lastErr =>
    ⟨.error ("TTS failed after 3 attempts: " ++ lastErr), cache, calls, false⟩
  | _ + 1, [], _, cache, calls, lastErr =>
    ⟨.error ("TTS failed after 3 attempts: " ++ lastErr), cache, calls, false⟩
  | n + 1, a :: rest, key, cache, calls, lastErr =>
    match a with
    | .error e => engAttemptLoop n rest key cache (calls + 1) e
    | .ok content =>
      if content.length = 0 then
        engAttemptLoop n rest key cache (calls + 1) "Generated audio file is empty"
      else if content.length < 500 then
        engAttemptLoop n rest key cache (calls + 1)
          "Generated audio file too small, likely corrupted"
      else ⟨.ok content, cachePut cache key content, calls + 1, false⟩

/-- `english_online_tts` from `tts_english_online.py`: reject empty text; on a
cache hit whose stored file is non-empty return a copy of it at once (no gTTS
call); otherwise pre-flight the network and run the attempt loop
(`max_retries = 3`). -/
def english_online_tts (text : String) (cache : List (String × String))
    (env : EnglishOnlineEnv) : EngOutcome :=
  if pyStrip text = "" then ⟨.error "Input text cannot be empty", cache, 0, false⟩
  else
    let key := text
    match cacheLookup cache key with
    | some c =>
      if c.length > 0 then ⟨.ok c, cache, 0, true⟩
      else if env.netUp then engAttemptLoop 3 env.attempts key cache 0 "None"
      else ⟨.error "No internet connection available for online TTS", cache, 0, false⟩
    | none =>
      if env.netUp then engAttemptLoop 3 env.attempts key cache 0 "None"
      else ⟨.error "No internet connection available for online TTS", cache, 0, false⟩

/-! ## The `/tts` endpoint (claims C2, C3, C6)

`app.text_to_speech`.  The three engines other than `english_online_tts` are
opaque to this endpoint; `AppEnv` carries the outcome each would produce if
invoked (`AudioFile` = produced path and `os.path.getsize`).  `engineCalls`
counts engine invocations (each gTTS attempt inside `english_online_tts`, and
each call of an offline/Urdu engine function, count as one). -/

structure AudioFile where
  path : String
  size : Nat
deriving DecidableEq

structure AppEnv where
  netUp : Bool
  gttsAttempts : List (Except String String)
  enOffline : Except String AudioFile
  urOnline : Except String AudioFile
  urOffline : Except String AudioFile

/-- What a successful `/tts` response exposes: the `Content-Length`, the MIME
choice (`audio/wav` iff the path ends in `.wav`) and whether the
`X-Fallback-Used: true` header is present. -/
structure TtsOk where
  size : Nat
  isWav : Bool
  usedFallback : Bool
deriving DecidableEq

structure TtsOutcome where
  response : Except String TtsOk
  cacheAfter : List (String × String)
  engineCalls : Nat
deriving DecidableEq

/-- `error_msg = f'TTS failed: {e}'` plus the `(fallback also failed)` suffix
when `fallback_attempted` is set. -/
def mkTtsErr (e : String) (fb : Bool) : String :=
  "TTS failed: " ++ e ++ (if fb then " (fallback also failed)" else "")

/-- The audio-validation and response-building tail of `text_to_speech`:
empty and sub-1000-byte files raise (caught by the outer handler), otherwise
the streaming response is built. -/
def appFinish (audio : AudioFile) (fb : Bool) : Except String TtsOk :=
  if audio.size = 0 then .error (mkTtsErr "Generated audio file is empty" fb)
  else if audio.size < 1000 then
    .error (mkTtsErr "Generated audio file appears corrupted" fb)
  else .ok ⟨audio.size, pyEndsWith audio.path ".wav", fb⟩

/-- `text_to_speech` from `app.py`: strip and validate the text, pick the
engine by `(language, mode)`, fall back exactly once to the same-language
offline engine when the online engine raises, then validate the audio.
The `english_online_tts` output path is `output/english_online_{key}.mp3`. -/
def text_to_speech (text language mode : String)
    (cache : List (String × String)) (env : AppEnv) : TtsOutcome :=
  let t := pyStrip text
  if t = "" then ⟨.error "No text provided", cache, 0⟩
  else if t.length > 5000 then
    ⟨.error "Text too long. Maximum 5000 characters allowed.", cache, 0⟩
  else if language = "ur" then
    if mode = "online" then
      match env.urOnline with
      | .ok audio => ⟨appFinish audio false, cache, 1⟩
      | .error _ =>
        match env.urOffline with
        | .ok audio => ⟨appFinish audio true, cache, 2⟩
        | .error e => ⟨.error (mkTtsErr e true), cache, 2⟩
    else
      match env.urOffline with
      | .ok audio => ⟨appFinish audio false, cache, 1⟩
      | .error e => ⟨.error (mkTtsErr e false), cache, 1⟩
  else
    if mode = "online" then
      let eo := english_online_tts t cache ⟨env.netUp, env.gttsAttempts⟩
      match eo.result with
      | .ok content =>
        ⟨appFinish ⟨"output/english_online_" ++ t ++ ".mp3", content.length⟩ false,
         eo.cacheAfter, eo.engineCalls⟩
      | .error _ =>
        match env.enOffline with
        | .ok audio => ⟨appFinish audio true, eo.cacheAfter, eo.engineCalls + 1⟩
        | .error e => ⟨.error (mkTtsErr e true), eo.cacheAfter, eo.engineCalls + 1⟩
    else
      match env.enOffline with
      | .ok audio => ⟨appFinish audio false, cache, 1⟩
      | .error e => ⟨.error (mkTtsErr e false), cache, 1⟩

/-! ## Urdu TTS (claim C10)

`generate_urdu_tts` from `tts_urdu.py`.  One `UrduAttemptEnv` per iteration of
the retry loop: the connectivity-check answer, the outcome a `gTTS(...).save`
would have in online mode, the file the pyttsx3 engine would produce (size and
whether `_is_audio_silent` holds; `nofile` = `runAndWait` completed but no file
appeared; `raised` = the generation thread raised or timed out), and the
outcome a `gTTS(...).save` would have when used as the offline fallback. -/

inductive OfflineWav where
  | raised (msg : String)
  | nofile
  | file (size : Nat) (silent : Bool)
deriving DecidableEq

structure UrduAttemptEnv where
  net : Bool
  gttsOnline : Except String Nat
  offlineWav : OfflineWav
  gttsFallback : Except String Nat
deriving DecidableEq

structure UrduResult where
  path : String
  size : Nat
  viaGtts : Bool
deriving DecidableEq

/-- The final-output validation at the end of each attempt of
`generate_urdu_tts` (file exists — guaranteed by a successful save — is
non-empty and at least 500 bytes). -/
def urduValidate (path : String) (size : Nat) (viaGtts : Bool) :
    Except String UrduResult :=
  if size = 0 then .error "Generated audio file is empty"
  else if size < 500 then .error "Generated audio file too small"
  else .ok ⟨path, size, viaGtts⟩

/-- One iteration of the retry loop of `generate_urdu_tts`.  Returns the
attempt's outcome together with the value of the `output_file` variable after
the iteration (the offline branch reassigns it to the `.mp3` name when the
gTTS fallback save succeeds). -/
def urduAttempt (mode : String) (env : UrduAttemptEnv) (output_file : String) :
    Except String UrduResult × String :=
  if mode = "online" then
    if !env.net then (.error "No internet connection for online TTS", output_file)
    else
      match env.gttsOnline with
      | .error e => (.error e, output_file)
      | .ok sz => (urduValidate output_file sz true, output_file)
  else
    let wav_file :=
      if pyEndsWith output_file ".mp3" then pyReplace output_file ".mp3" ".wav"
      else output_file
    match env.offlineWav with
    | .raised msg => (.error msg, output_file)
    | .file sz silent =>
      if sz > 1000 && !silent then (.ok ⟨wav_file, sz, false⟩, output_file)
      else
        if !env.net then
          (.error "Offline TTS failed and no internet for fallback", output_file)
        else
          let mp3_file :=
            if pyEndsWith output_file ".wav" then pyReplace output_file ".wav" ".mp3"
            else output_file
          match env.gttsFallback with
          | .error e => (.error e, output_file)
          | .ok sz2 => (urduValidate mp3_file sz2 true, mp3_file)
    | .nofile =>
      if !env.net then
        (.error "Offline TTS failed and no internet for fallback", output_file)
      else
        let mp3_file :=
          if pyEndsWith output_file ".wav" then pyReplace output_file ".wav" ".mp3"
          else output_file
        match env.gttsFallback with
        | .error e => (.error e, output_file)
        | .ok sz2 => (urduValidate mp3_file sz2 true, mp3_file)

/-- The retry loop of `generate_urdu_tts` (`max_retries = 2`); the mutated
`output_file` carries over between iterations, as in the Python code. -/
def urduLoop : Nat → List UrduAttemptEnv → String → String → String →
    Except String UrduResult
  | 0, _, _, _, lastErr => .error ("Urdu TTS failed after 2 attempts: " ++ lastErr)
  | _ + 1, [], _, _, lastErr =>
    .error ("Urdu TTS failed after 2 attempts: " ++ lastErr)
  | n + 1, e :: rest, mode, path, _ =>
    match urduAttempt mode e path with
    | (.ok r, _) => .ok r
    | (.error msg, path') => urduLoop n rest mode path' msg

/-- `generate_urdu_tts` from `tts_urdu.py`. -/
def generate_urdu_tts (text mode output_file : String)
    (envs : List UrduAttemptEnv) : Except String UrduResult :=
  if pyStrip text = "" then .error "Input text cannot be empty"
  else urduLoop 2 envs mode output_file "None"

/-! ## Unified extraction and the upload endpoint (claim C5)

`combined_module_01.extract_text` dispatches on the file extension.  A source
document is represented by its parsed content: PDF pages, DOCX paragraphs
(`none` models `Document(path)` raising, which the reader swallows), the OCR
paragraphs of an image, or an unsupported extension. -/

inductive SrcDocument where
  | pdf (pages : List PdfPage)
  | docx (paragraphs : Option (List String))
  | image (ocrParagraphs : List String)
  | other (ext : String)
deriving DecidableEq

/-- The `text += para.text + "\n"` accumulation of `extract_text_from_docx`. -/
def docxConcat : List String → String
  | [] => ""
  | p :: ps => p ++ "\n" ++ docxConcat ps

/-- `extract_text_from_docx` from `combined_module_01.py`: concatenate the
paragraphs; a reader exception is swallowed (`print`) leaving `text = ""`;
either way the result is `clean_text`-ed. -/
def cm_extract_text_from_docx : Option (List String) → String
  | none => clean_text ""
  | some paras => clean_text (docxConcat paras)

/-- `extract_text_from_image` from `combined_module_01.py`: join the OCR
paragraph results with newlines and clean. -/
def cm_extract_text_from_image (ocrParagraphs : List String) : String :=
  clean_text (joinNl ocrParagraphs)

/-- `extract_text` from `combined_module_01.py`: dispatch by extension;
unsupported extensions raise. -/
def extract_text : SrcDocument → Except String String
  | .pdf pages => .ok (cm_extract_text_from_pdf pages)
  | .docx paras => .ok (cm_extract_text_from_docx paras)
  | .image ocr => .ok (cm_extract_text_from_image ocr)
  | .other _ => .error "Unsupported file type"

/-- The post-extraction tail of `app.upload_file` (lines 125–139): a raised
extraction error becomes a 500 `Text extraction failed` response; an extraction
whose text is empty or whitespace-only becomes the 400 `No text extracted`
response; otherwise the stripped text is returned. -/
def upload_postprocess (extraction : Except String String) :
    Except String String :=
  match extraction with
  | .error e => .error ("Text extraction failed: " ++ e)
  | .ok t => if pyStrip t = "" then .error "No text extracted" else .ok (pyStrip t)

/-! ## Helper lemmas about the string primitives -/

theorem dropWhile_self_idem (p : Char → Bool) (l : List Char) :
    (l.dropWhile p).dropWhile p = l.dropWhile p := by
  induction l with
  | nil => rfl
  | cons a l ih =>
    cases hp : p a with
    | true => simp [List.dropWhile_cons, hp, ih]
    | false => simp [List.dropWhile_cons, hp]

theorem length_dropWhile_le' (p : Char → Bool) (l : List Char) :
    (l.dropWhile p).length ≤ l.length := by
  induction l with
  | nil => exact Nat.le_refl 0
  | cons a l ih =>
    cases hp : p a with
    | true =>
      simp only [List.dropWhile_cons, hp]
      exact Nat.le_trans ih (Nat.le_succ _)
    | false => simp [List.dropWhile_cons, hp]

theorem stripLeading_idem (l : List Char) :
    stripLeading (stripLeading l) = stripLeading l :=
  dropWhile_self_idem isPyWhite l

theorem stripTrailing_idem (l : List Char) :
    stripTrailing (stripTrailing l) = stripTrailing l := by
  induction l with
  | nil => rfl
  | cons c cs ih =>
    simp only [stripTrailing]
    cases h : (decide (stripTrailing cs = []) && isPyWhite c) with
    | true => rfl
    | false => simp only [stripTrailing, ih, h, Bool.false_eq_true, if_false]

theorem stripLeading_stripTrailing (m : List Char) (h : stripLeading m = m) :
    stripLeading (stripTrailing m) = stripTrailing m := by
  cases m with
  | nil => rfl
  | cons c cs =>
    have hc : isPyWhite c = false := by
      cases hw : isPyWhite c with
      | false => rfl
      | true =>
        exfalso
        simp only [stripLeading, List.dropWhile_cons, hw, if_true] at h
        have hlen := congrArg List.length h
        have hle := length_dropWhile_le' isPyWhite cs
        simp only [List.length_cons] at hlen
        omega
    simp only [stripTrailing, hc, Bool.and_false, Bool.false_eq_true, if_false]
    simp [stripLeading, List.dropWhile_cons, hc]

theorem trimChars_idem (l : List Char) : trimChars (trimChars l) = trimChars l := by
  unfold trimChars
  rw [stripLeading_stripTrailing (stripLeading l) (stripLeading_idem l),
    stripTrailing_idem]

theorem pyStrip_idem (s : String) : pyStrip (pyStrip s) = pyStrip s := by
  show String.mk (trimChars (trimChars s.data)) = String.mk (trimChars s.data)
  rw [trimChars_idem]

theorem stripTrailing_no_white (l : List Char)
    (h : ∀ c ∈ l, isPyWhite c = false) : stripTrailing l = l := by
  induction l with
  | nil => rfl
  | cons c cs ih =>
    have hc : isPyWhite c = false := h c (List.mem_cons_self c cs)
    have ih' := ih (fun a ha => h a (List.mem_cons_of_mem c ha))
    simp [stripTrailing, hc, ih']

theorem pyStrip_no_white (s : String)
    (h : ∀ c ∈ s.data, isPyWhite c = false) : pyStrip s = s := by
  show String.mk (stripTrailing (stripLeading s.data)) = s
  have h1 : stripLeading s.data = s.data := by
    cases hd : s.data with
    | nil => rfl
    | cons c cs =>
      have hc : isPyWhite c = false := h c (by rw [hd]; exact List.mem_cons_self c cs)
      simp [stripLeading, List.dropWhile_cons, hc]
  rw [h1, stripTrailing_no_white s.data h]

theorem stripTrailing_append_white (l : List Char) (c : Char)
    (h : ∀ a ∈ l, isPyWhite a = false) (hc : isPyWhite c = true) :
    stripTrailing (l ++ [c]) = l := by
  induction l with
  | nil => simp [stripTrailing, hc]
  | cons a l ih =>
    have ha : isPyWhite a = false := h a (List.mem_cons_self a l)
    have ih' := ih (fun b hb => h b (List.mem_cons_of_mem a hb))
    simp [stripTrailing, ha, ih']

/-! ## Helper lemmas for the two PDF extraction loops -/

theorem fop_loop_eq (ps : List PdfPage) (acc : List String) :
    fop_loop ps acc = acc ++ ps.map fop_pageText := by
  induction ps generalizing acc with
  | nil => simp [fop_loop]
  | cons p ps ih => simp [fop_loop, ih]

theorem cm_textLoop_eq (ps : List PdfPage) (acc : List String) :
    cm_textLoop ps acc =
      acc ++ (ps.map PdfPage.textLayer).filter (fun t => t ≠ "") := by
  induction ps generalizing acc with
  | nil => simp [cm_textLoop]
  | cons p ps ih =>
    by_cases h : p.textLayer = "" <;>
      simp [cm_textLoop, ih, List.filter_cons, h]

theorem cm_ocrLoop_eq (ps : List PdfPage) (acc : List String) :
    cm_ocrLoop ps acc = acc ++ ps.map PdfPage.ocrText := by
  induction ps generalizing acc with
  | nil => simp [cm_ocrLoop]
  | cons p ps ih => simp [cm_ocrLoop, ih]

/-! ## Claim C1 -/

/-- C1 counterexample.  The claim says every PDF extractor decides between
text layer and optical recognition per page.  `combined_module_01`'s
`extract_text_from_pdf` does not: on a document whose first page has text
layer `"A"` and whose second page is image-only (empty text layer, OCR text
`"C"`), it returns just `"A"` — the image-only page contributes nothing and no
optical-recognition pass runs — while the claimed per-page behaviour
(`specC1_perPageExtract`, which `final_ocr_pipeline` implements) yields
`"A\nC"`. -/
theorem C1_counterexample :
    cm_extract_text_from_pdf [⟨"A", "X"⟩, ⟨"", "C"⟩] = "A" ∧
    specC1_perPageExtract [⟨"A", "X"⟩, ⟨"", "C"⟩] = "A\nC" ∧
    cm_extract_text_from_pdf [⟨"A", "X"⟩, ⟨"", "C"⟩] ≠
      specC1_perPageExtract [⟨"A", "X"⟩, ⟨"", "C"⟩] :=
  ⟨by decide, by decide, by decide⟩

/-- C1 (amended): `final_ocr_pipeline.extract_text_from_pdf` decides between
text layer and 300-DPI optical recognition per page exactly as claimed;
`combined_module_01.extract_text_from_pdf` instead decides at document level:
when every page's text layer is the empty string it OCRs every page and
concatenates in document order, and when at least one page has a non-empty
text layer it concatenates exactly the non-empty text layers (image-only
pages contribute nothing and optical recognition never runs). -/
theorem C1_pdf_extraction_decision :
    (∀ doc : List PdfPage,
      fop_extract_text_from_pdf doc = specC1_perPageExtract doc) ∧
    (∀ doc : List PdfPage, (∀ p ∈ doc, p.textLayer = "") →
      cm_extract_text_from_pdf doc = clean_text (joinNl (doc.map PdfPage.ocrText))) ∧
    (∀ doc : List PdfPage, (∃ p ∈ doc, p.textLayer ≠ "") →
      cm_extract_text_from_pdf doc =
        clean_text (joinNl ((doc.map PdfPage.textLayer).filter (fun t => t ≠ "")))) := by
  refine ⟨fun doc => ?_, fun doc h => ?_, fun doc h => ?_⟩
  · unfold fop_extract_text_from_pdf specC1_perPageExtract
    rw [fop_loop_eq]
    rfl
  · have hfil : (doc.map PdfPage.textLayer).filter (fun t => t ≠ "") = [] := by
      rw [List.filter_eq_nil_iff]
      intro a ha
      rcases List.mem_map.mp ha with ⟨p, hp, rfl⟩
      simp [h p hp]
    have hempty : cm_textLoop doc [] = [] := by
      rw [cm_textLoop_eq]
      simpa using hfil
    show (if cm_textLoop doc [] ≠ [] then clean_text (joinNl (cm_textLoop doc []))
      else clean_text (joinNl (cm_ocrLoop doc []))) = _
    rw [hempty, if_neg (by simp), cm_ocrLoop_eq]
    rfl
  · have hfil : (doc.map PdfPage.textLayer).filter (fun t => t ≠ "") ≠ [] := by
      rcases h with ⟨p, hp, hne⟩
      intro hcon
      rw [List.filter_eq_nil_iff] at hcon
      exact hcon p.textLayer (List.mem_map.mpr ⟨p, hp, rfl⟩) (by simpa using hne)
    have hne' : cm_textLoop doc [] ≠ [] := by
      rw [cm_textLoop_eq]
      simpa using hfil
    show (if cm_textLoop doc [] ≠ [] then clean_text (joinNl (cm_textLoop doc []))
      else clean_text (joinNl (cm_ocrLoop doc []))) = _
    rw [if_pos hne', cm_textLoop_eq]
    rfl

/-- Witness for `C1_pdf_extraction_decision` at concrete documents: an
all-scanned two-page document for the OCR branch and a document with one
text-bearing page for the text-layer branch. -/
theorem C1_pdf_extraction_decision_witness :
    cm_extract_text_from_pdf [⟨"", "B"⟩, ⟨"", "D"⟩] =
      clean_text (joinNl (([⟨"", "B"⟩, ⟨"", "D"⟩] : List PdfPage).map PdfPage.ocrText)) ∧
    cm_extract_text_from_pdf [⟨"A", "X"⟩] =
      clean_text (joinNl ((([⟨"A", "X"⟩] : List PdfPage).map PdfPage.textLayer).filter
        (fun t => t ≠ ""))) :=
  ⟨C1_pdf_extraction_decision.2.1 [⟨"", "B"⟩, ⟨"", "D"⟩] (by decide),
   C1_pdf_extraction_decision.2.2 [⟨"A", "X"⟩] ⟨⟨"A", "X"⟩, by decide, by decide⟩⟩

/-! ## Claim C5 -/

/-- C5 counterexample.  The claim says an extraction whose final text is empty
after trimming is reported as a failure, never as an empty success.  But
`combined_module_01.extract_text` on a DOCX document whose only paragraph is a
single space returns the empty string as a success value (no error is
raised). -/
theorem C5_counterexample :
    extract_text (SrcDocument.docx (some [" "])) = Except.ok "" := by decide

/-- C5 (amended): the `/upload` endpoint never returns a whitespace-only
success — whatever the extractor produced, a successful upload response
carries trimmed, non-empty text, and an extraction result that is empty or
whitespace-only is turned into the `No text extracted` failure; the underlying
`extract_text` function, however, can itself return the empty string as a
success (see the counterexample). -/
theorem C5_upload_never_empty_success :
    (∀ doc r, upload_postprocess (extract_text doc) = Except.ok r →
      r ≠ "" ∧ pyStrip r = r) ∧
    (∀ ex r, upload_postprocess ex = Except.ok r → r ≠ "" ∧ pyStrip r = r) ∧
    (∀ t, pyStrip t = "" →
      upload_postprocess (Except.ok t) = Except.error "No text extracted") := by
  have key : ∀ ex r, upload_postprocess ex = Except.ok r → r ≠ "" ∧ pyStrip r = r := by
    intro ex r h
    cases ex with
    | error e => exact absurd h (by simp [upload_postprocess])
    | ok t =>
      by_cases h0 : pyStrip t = ""
      · exact absurd h (by simp [upload_postprocess, h0])
      · have : r = pyStrip t := by
          simp only [upload_postprocess, h0, if_neg] at h
          exact (Except.ok.inj h).symm
        subst this
        exact ⟨h0, pyStrip_idem t⟩
  refine ⟨fun doc r h => key _ r h, key, fun t h0 => ?_⟩
  simp [upload_postprocess, h0]

/-- Witness for `C5_upload_never_empty_success`: a one-paragraph DOCX document
uploads as the non-empty trimmed text `"hello"`, and a whitespace-only
extraction result is rejected. -/
theorem C5_upload_never_empty_success_witness :
    ("hello" ≠ "" ∧ pyStrip "hello" = "hello") ∧
    upload_postprocess (Except.ok " ") = Except.error "No text extracted" :=
  ⟨C5_upload_never_empty_success.1 (SrcDocument.docx (some ["hello"])) "hello" (by decide),
   C5_upload_never_empty_success.2.2 " " (by decide)⟩

/-! ## Claims C7 and C8 -/

/-- C7 counterexample.  The claim says any identified language outside the
supported set `{en, ur}` is clamped to the primary language `en`.  But `hi` is
outside the supported set, and on the Urdu-script text `"ابت"` the endpoint
resolves a `hi` proposal to `ur`, not to `en`: the script-based override takes
the outside-set proposal to the secondary language instead of clamping it. -/
theorem C7_counterexample :
    "hi" ≠ "en" ∧ "hi" ≠ "ur" ∧
    detectLanguageEndpoint "ابت" (Except.ok "hi") =
      Except.ok ⟨"ur", min (95/100)
        (70/100 + ((min (pyStrip "ابت").length 1000 : ℚ) / 1000) * (25/100))⟩ :=
  ⟨by decide, by decide, rfl⟩

/-- C7 (amended): the language stage always resolves within the supported set
`{en, ur}` and is never left unresolved: every successful `/detect-language`
response carries `en` or `ur`; a classifier exception yields the default
`("en", 0.50)` instead of an error; a proposal outside `{en, ur, hi, ar}` is
clamped to `("en", 0.60)`; a `hi`/`ar` proposal is clamped to `("en", 0.60)`
only when the stripped text contains no Urdu-script probe character — with
such a character present it resolves to `ur` instead of being clamped to the
primary language (see the counterexample); and
`TextProcessor.prepare_text_for_tts` likewise always resolves to `en` or
`ur`, with `en` on classifier failure. -/
theorem C7_language_always_supported :
    (∀ text oracle r, detectLanguageEndpoint text oracle = Except.ok r →
      r.language = "en" ∨ r.language = "ur") ∧
    (∀ text, pyStrip text ≠ "" →
      detectLanguageEndpoint text (Except.error ()) = Except.ok ⟨"en", 1/2⟩) ∧
    (∀ text lg, pyStrip text ≠ "" → lg ≠ "en" → lg ≠ "ur" → lg ≠ "hi" → lg ≠ "ar" →
      detectLanguageEndpoint text (Except.ok lg) = Except.ok ⟨"en", 60/100⟩) ∧
    (∀ text lg, pyStrip text ≠ "" → (lg = "hi" ∨ lg = "ar") →
      hasUrduProbeChar (pyStrip text) = false →
      detectLanguageEndpoint text (Except.ok lg) = Except.ok ⟨"en", 60/100⟩) ∧
    (∀ text lg, pyStrip text ≠ "" → (lg = "hi" ∨ lg = "ar") →
      hasUrduProbeChar (pyStrip text) = true →
      ∃ r, detectLanguageEndpoint text (Except.ok lg) = Except.ok r ∧
        r.language = "ur") ∧
    (∀ text oracle, (prepare_text_for_tts text oracle).1 = "en" ∨
      (prepare_text_for_tts text oracle).1 = "ur") ∧
    (∀ text, (prepare_text_for_tts text (Except.error ())).1 = "en") := by
  refine ⟨?_, ?_, ?_, ?_, ?_, ?_, ?_⟩
  · intro text oracle r h
    simp only [detectLanguageEndpoint] at h
    split at h
    · exact absurd h (by simp)
    · split at h
      · rw [← Except.ok.inj h]
        exact Or.inl rfl
      · split at h
        · have hui : (("ur" : String) == "en" || ("ur" : String) == "ur") = true := rfl
          rw [if_pos hui] at h
          rw [← Except.ok.inj h]
          exact Or.inr rfl
        · split at h
          · rename_i hsup
            rw [← Except.ok.inj h]
            rcases Bool.or_eq_true_iff.mp hsup with h1 | h1
            · exact Or.inl (by simpa using h1)
            · exact Or.inr (by simpa using h1)
          · rw [← Except.ok.inj h]
            exact Or.inl rfl
  · intro text h0
    simp [detectLanguageEndpoint, h0]
  · intro text lg h0 hen hur hhi har
    have b1 : (lg == "hi") = false := beq_eq_false_iff_ne.mpr hhi
    have b2 : (lg == "ar") = false := beq_eq_false_iff_ne.mpr har
    have b3 : (lg == "en") = false := beq_eq_false_iff_ne.mpr hen
    have b4 : (lg == "ur") = false := beq_eq_false_iff_ne.mpr hur
    simp [detectLanguageEndpoint, h0, b1, b2, b3, b4]
  · intro text lg h0 hlg hscript
    rcases hlg with h | h <;> subst h <;>
      simp [detectLanguageEndpoint, h0, hscript]
  · intro text lg h0 hlg hscript
    have hb : (lg == "hi" || lg == "ar") = true := by
      rcases hlg with h | h <;> simp [h]
    exact ⟨⟨"ur", min (95/100)
      (70/100 + ((min (pyStrip text).length 1000 : ℚ) / 1000) * (25/100))⟩,
      by simp [detectLanguageEndpoint, h0, hb, hscript], rfl⟩
  · intro text oracle
    by_cases h : tp_detect_language oracle = "ur"
    · exact Or.inr (by simp [prepare_text_for_tts, h])
    · exact Or.inl (by simp [prepare_text_for_tts, h])
  · intro text
    simp [prepare_text_for_tts, tp_detect_language]

/-- Witness for `C7_language_always_supported`: a classifier exception on
`"hello"` defaults to `("en", 0.50)`; the unsupported proposal `fr` on
`"bonjour"` is clamped to `("en", 0.60)`; the proposal `hi` on the
script-free text `"hello"` is clamped to `("en", 0.60)`; the proposal `ar` on
the Urdu-script text `"ابت"` resolves to `ur`; and a concrete successful
response carries a supported language. -/
theorem C7_language_always_supported_witness :
    detectLanguageEndpoint "hello" (Except.error ()) = Except.ok ⟨"en", 1/2⟩ ∧
    detectLanguageEndpoint "bonjour" (Except.ok "fr") = Except.ok ⟨"en", 60/100⟩ ∧
    detectLanguageEndpoint "hello" (Except.ok "hi") = Except.ok ⟨"en", 60/100⟩ ∧
    (∃ r, detectLanguageEndpoint "ابت" (Except.ok "ar") = Except.ok r ∧
      r.language = "ur") ∧
    ((⟨"en", 1/2⟩ : LangResult).language = "en" ∨
      (⟨"en", 1/2⟩ : LangResult).language = "ur") :=
  ⟨C7_language_always_supported.2.1 "hello" (by decide),
   C7_language_always_supported.2.2.1 "bonjour" "fr" (by decide) (by decide)
     (by decide) (by decide) (by decide),
   C7_language_always_supported.2.2.2.1 "hello" "hi" (by decide) (Or.inl rfl)
     (by decide),
   C7_language_always_supported.2.2.2.2.1 "ابت" "ar" (by decide) (Or.inr rfl)
     (by decide),
   C7_language_always_supported.1 "hello" (Except.error ()) ⟨"en", 1/2⟩
     (C7_language_always_supported.2.1 "hello" (by decide))⟩

/-- C8 counterexample.  The claim says any proposal outside the supported set
combined with Urdu-script content is overridden to `ur`.  But the override in
`app.py` fires only for the proposals `hi` and `ar`: for the proposal `fa` on
the Urdu-script text `"ابت"` the endpoint clamps to `("en", 0.60)` instead of
resolving `ur`. -/
theorem C8_counterexample :
    hasUrduProbeChar "ابت" = true ∧
    detectLanguageEndpoint "ابت" (Except.ok "fa") = Except.ok ⟨"en", 60/100⟩ := by
  constructor
  · decide
  · rfl

/-- C8 (amended): the script-based override takes precedence over the
classifier only when the classifier proposes `hi` or `ar`; in that case the
presence of at least one Urdu probe character in the stripped text resolves
the language to `ur` (a proposal outside `{en, ur, hi, ar}` is clamped to `en`
regardless of script content — see the counterexample). -/
theorem C8_script_override (text lg : String) (h0 : pyStrip text ≠ "")
    (hlg : lg = "hi" ∨ lg = "ar")
    (hscript : hasUrduProbeChar (pyStrip text) = true) :
    ∃ r, detectLanguageEndpoint text (Except.ok lg) = Except.ok r ∧
      r.language = "ur" := by
  have hb : (lg == "hi" || lg == "ar") = true := by
    rcases hlg with h | h <;> simp [h]
  refine ⟨⟨"ur", min (95/100)
    (70/100 + ((min (pyStrip text).length 1000 : ℚ) / 1000) * (25/100))⟩, ?_, rfl⟩
  simp [detectLanguageEndpoint, h0, hb, hscript]

/-- Witness for `C8_script_override`: proposal `hi` on `"ابت"` resolves to
`ur`. -/
theorem C8_script_override_witness :
    ∃ r, detectLanguageEndpoint "ابت" (Except.ok "hi") = Except.ok r ∧
      r.language = "ur" :=
  C8_script_override "ابت" "hi" (by decide) (Or.inl rfl) (by decide)

/-! ## Helper lemmas for the synthesis endpoint and the cache -/

theorem pyEndsWith_append_mp3_wav (s : String) :
    pyEndsWith (s ++ ".mp3") ".wav" = false := by
  show (".wav".data.reverse.isPrefixOf (s ++ ".mp3").data.reverse) = false
  rw [String.data_append]
  rw [show (".mp3" : String).data = ['.', 'm', 'p', '3'] from rfl,
    show (".wav" : String).data.reverse = ['v', 'a', 'w', '.'] from rfl,
    List.reverse_append]
  simp [List.isPrefixOf_cons₂]

theorem pyStrip_mk_replicate (n : Nat) :
    pyStrip (String.mk (List.replicate n 'a')) = String.mk (List.replicate n 'a') :=
  pyStrip_no_white _ (fun c hc => by rw [List.eq_of_mem_replicate hc]; rfl)

theorem mk_replicate_ne_empty (n : Nat) (h : 0 < n) :
    String.mk (List.replicate n 'a') ≠ "" := by
  intro he
  have hlen := congrArg String.length he
  simp only [String.length] at hlen
  simp at hlen
  omega

theorem cacheLookup_cachePut (cache : List (String × String)) (k v : String) :
    cacheLookup (cachePut cache k v) k = some v := by
  simp [cachePut, cacheLookup]

theorem appFinish_ok_of (audio : AudioFile) (fb : Bool) (h : 1000 ≤ audio.size) :
    appFinish audio fb = Except.ok ⟨audio.size, pyEndsWith audio.path ".wav", fb⟩ := by
  unfold appFinish
  rw [if_neg (by omega), if_neg (by omega)]

theorem appFinish_ok (audio : AudioFile) (fb : Bool) (o : TtsOk)
    (h : appFinish audio fb = Except.ok o) :
    o = ⟨audio.size, pyEndsWith audio.path ".wav", fb⟩ ∧ 1000 ≤ audio.size := by
  unfold appFinish at h
  by_cases h0 : audio.size = 0
  · rw [if_pos h0] at h
    exact absurd h (by simp)
  · rw [if_neg h0] at h
    by_cases h1 : audio.size < 1000
    · rw [if_pos h1] at h
      exact absurd h (by simp)
    · rw [if_neg h1] at h
      exact ⟨(Except.ok.inj h).symm, by omega⟩

theorem engAttemptLoop_ok (n : Nat) (attempts : List (Except String String))
    (key : String) (cache : List (String × String)) (calls : Nat) (lastErr : String)
    (content : String)
    (h : (engAttemptLoop n attempts key cache calls lastErr).result = Except.ok content) :
    (engAttemptLoop n attempts key cache calls lastErr).cacheAfter =
      cachePut cache key content ∧ 500 ≤ content.length := by
  induction n generalizing attempts calls lastErr with
  | zero => exact absurd h (by simp [engAttemptLoop])
  | succ n ih =>
    cases attempts with
    | nil => exact absurd h (by simp [engAttemptLoop])
    | cons a rest =>
      cases a with
      | error e =>
        simp only [engAttemptLoop] at h ⊢
        exact ih rest _ _ h
      | ok c =>
        simp only [engAttemptLoop] at h ⊢
        by_cases h0 : c.length = 0
        · rw [if_pos h0] at h ⊢
          exact ih rest _ _ h
        · rw [if_neg h0] at h ⊢
          by_cases h5 : c.length < 500
          · rw [if_pos h5] at h ⊢
            exact ih rest _ _ h
          · rw [if_neg h5] at h ⊢
            have hc : c = content := Except.ok.inj h
            subst hc
            exact ⟨rfl, by omega⟩

/-- A cache hit whose stored entry is non-empty is returned at once: no gTTS
call, cache unchanged. -/
theorem english_online_cache_hit (t : String) (cache : List (String × String))
    (env : EnglishOnlineEnv) (c : String) (h0 : pyStrip t ≠ "")
    (hl : cacheLookup cache t = some c) (hc : 0 < c.length) :
    english_online_tts t cache env = ⟨Except.ok c, cache, 0, true⟩ := by
  simp only [english_online_tts]
  rw [if_neg h0, hl]
  show (if c.length > 0 then _ else _) = _
  rw [if_pos hc]

/-- An empty cached entry is skipped (treated as a miss) but left in place:
with the network down the call fails and the cache is unchanged. -/
theorem english_online_empty_hit_netdown (t : String)
    (cache : List (String × String)) (env : EnglishOnlineEnv) (c : String)
    (h0 : pyStrip t ≠ "") (hl : cacheLookup cache t = some c)
    (hc : c.length = 0) (hnet : env.netUp = false) :
    english_online_tts t cache env =
      ⟨Except.error "No internet connection available for online TTS",
       cache, 0, false⟩ := by
  simp only [english_online_tts]
  rw [if_neg h0, hl]
  show (if c.length > 0 then _ else if env.netUp then _ else _) = _
  rw [if_neg (by omega), if_neg (by rw [hnet]; exact Bool.false_ne_true)]

/-- A successful `english_online_tts` call leaves its own output in the cache
under the fingerprint, and that output is non-empty. -/
theorem english_online_ok_lookup (t : String) (cache : List (String × String))
    (env : EnglishOnlineEnv) (content : String)
    (h : (english_online_tts t cache env).result = Except.ok content) :
    cacheLookup (english_online_tts t cache env).cacheAfter t = some content ∧
      0 < content.length := by
  revert h
  simp only [english_online_tts]
  split
  · intro h
    exact absurd h (by simp)
  · split
    · rename_i c hlook
      split
      · rename_i hc
        intro h
        have : c = content := Except.ok.inj h
        subst this
        exact ⟨hlook, hc⟩
      · split
        · intro h
          obtain ⟨hca, hlen⟩ := engAttemptLoop_ok 3 env.attempts t cache 0 "None" content h
          rw [hca, cacheLookup_cachePut]
          exact ⟨rfl, by omega⟩
        · intro h
          exact absurd h (by simp)
    · split
      · intro h
        obtain ⟨hca, hlen⟩ := engAttemptLoop_ok 3 env.attempts t cache 0 "None" content h
        rw [hca, cacheLookup_cachePut]
        exact ⟨rfl, by omega⟩
      · intro h
        exact absurd h (by simp)

/-- English network-preferred branch of `text_to_speech` when
`english_online_tts` succeeds. -/
theorem tts_en_online_ok (text : String) (cache : List (String × String))
    (env : AppEnv) (content : String) (h0 : pyStrip text ≠ "")
    (h5 : ¬(pyStrip text).length > 5000)
    (heo : (english_online_tts (pyStrip text) cache
      ⟨env.netUp, env.gttsAttempts⟩).result = Except.ok content) :
    text_to_speech text "en" "online" cache env =
      ⟨appFinish ⟨"output/english_online_" ++ pyStrip text ++ ".mp3",
          content.length⟩ false,
       (english_online_tts (pyStrip text) cache
         ⟨env.netUp, env.gttsAttempts⟩).cacheAfter,
       (english_online_tts (pyStrip text) cache
         ⟨env.netUp, env.gttsAttempts⟩).engineCalls⟩ := by
  simp only [text_to_speech]
  rw [if_neg h0, if_neg h5, if_neg (by decide : ¬("en" = "ur")), if_pos trivial, heo]

/-- English network-preferred branch when `english_online_tts` fails and the
offline fallback produces a file: exactly one switch to the offline engine. -/
theorem tts_en_online_err_ok (text : String) (cache : List (String × String))
    (env : AppEnv) (e : String) (audio : AudioFile) (h0 : pyStrip text ≠ "")
    (h5 : ¬(pyStrip text).length > 5000)
    (heo : (english_online_tts (pyStrip text) cache
      ⟨env.netUp, env.gttsAttempts⟩).result = Except.error e)
    (hoff : env.enOffline = Except.ok audio) :
    text_to_speech text "en" "online" cache env =
      ⟨appFinish audio true,
       (english_online_tts (pyStrip text) cache
         ⟨env.netUp, env.gttsAttempts⟩).cacheAfter,
       (english_online_tts (pyStrip text) cache
         ⟨env.netUp, env.gttsAttempts⟩).engineCalls + 1⟩ := by
  simp only [text_to_speech]
  rw [if_neg h0, if_neg h5, if_neg (by decide : ¬("en" = "ur")), if_pos trivial, heo, hoff]

/-- English network-preferred branch when both the online engine and the
offline fallback fail. -/
theorem tts_en_online_err_err (text : String) (cache : List (String × String))
    (env : AppEnv) (e e2 : String) (h0 : pyStrip text ≠ "")
    (h5 : ¬(pyStrip text).length > 5000)
    (heo : (english_online_tts (pyStrip text) cache
      ⟨env.netUp, env.gttsAttempts⟩).result = Except.error e)
    (hoff : env.enOffline = Except.error e2) :
    text_to_speech text "en" "online" cache env =
      ⟨Except.error (mkTtsErr e2 true),
       (english_online_tts (pyStrip text) cache
         ⟨env.netUp, env.gttsAttempts⟩).cacheAfter,
       (english_online_tts (pyStrip text) cache
         ⟨env.netUp, env.gttsAttempts⟩).engineCalls + 1⟩ := by
  simp only [text_to_speech]
  rw [if_neg h0, if_neg h5, if_neg (by decide : ¬("en" = "ur")), if_pos trivial, heo, hoff]

/-- Urdu network-preferred branch when the online engine fails and the offline
fallback produces a file. -/
theorem tts_ur_online_err_ok (text : String) (cache : List (String × String))
    (env : AppEnv) (e : String) (audio : AudioFile) (h0 : pyStrip text ≠ "")
    (h5 : ¬(pyStrip text).length > 5000)
    (hur : env.urOnline = Except.error e) (hoff : env.urOffline = Except.ok audio) :
    text_to_speech text "ur" "online" cache env = ⟨appFinish audio true, cache, 2⟩ := by
  simp only [text_to_speech]
  rw [if_neg h0, if_neg h5, if_pos trivial, if_pos trivial, hur, hoff]

/-- Urdu network-preferred branch when both engines fail. -/
theorem tts_ur_online_err_err (text : String) (cache : List (String × String))
    (env : AppEnv) (e e2 : String) (h0 : pyStrip text ≠ "")
    (h5 : ¬(pyStrip text).length > 5000)
    (hur : env.urOnline = Except.error e) (hoff : env.urOffline = Except.error e2) :
    text_to_speech text "ur" "online" cache env =
      ⟨Except.error (mkTtsErr e2 true), cache, 2⟩ := by
  simp only [text_to_speech]
  rw [if_neg h0, if_neg h5, if_pos trivial, if_pos trivial, hur, hoff]

/-! ## Claim C6 -/

/-- C6 (amended): a request whose text exceeds 5000 characters *after
stripping surrounding whitespace* is rejected with the length-specific error
before any engine is invoked: no engine call, no cache write, no audio
output.  (The raw text length is not what is checked — see the
counterexample.) -/
theorem C6_length_rejection (text language mode : String)
    (cache : List (String × String)) (env : AppEnv)
    (h : (pyStrip text).length > 5000) :
    text_to_speech text language mode cache env =
      ⟨Except.error "Text too long. Maximum 5000 characters allowed.", cache, 0⟩ := by
  have h0 : pyStrip text ≠ "" := by
    intro he
    rw [he] at h
    exact absurd h (by decide)
  simp only [text_to_speech]
  rw [if_neg h0, if_pos h]

/-- Witness for `C6_length_rejection`: 5001 non-blank characters are rejected
with no engine call and no cache change. -/
theorem C6_length_rejection_witness :
    text_to_speech (String.mk (List.replicate 5001 'a')) "en" "online" []
        ⟨true, [], Except.error "x", Except.error "x", Except.error "x"⟩ =
      ⟨Except.error "Text too long. Maximum 5000 characters allowed.", [], 0⟩ :=
  C6_length_rejection _ "en" "online" [] _ (by
    rw [pyStrip_mk_replicate,
      show (String.mk (List.replicate 5001 'a')).length = (List.replicate 5001 'a').length from rfl,
      List.length_replicate]
    omega)

/-- C6 counterexample.  The claim quantifies over requests whose text exceeds
5000 characters, but the endpoint checks the length of the *stripped* text: a
5001-character request text consisting of 5000 letters and a trailing blank is
not rejected — with the network down it reaches the offline engine
(`engineCalls = 1`) and audio is produced. -/
theorem C6_counterexample :
    (String.mk (List.replicate 5000 'a' ++ [' '])).length = 5001 ∧
    text_to_speech (String.mk (List.replicate 5000 'a' ++ [' '])) "en" "online" []
        ⟨false, [], Except.ok ⟨"output/english_offline_1.wav", 2000⟩,
         Except.error "u", Except.error "u"⟩ =
      ⟨Except.ok ⟨2000, true, true⟩, [], 1⟩ := by
  have hstrip : pyStrip (String.mk (List.replicate 5000 'a' ++ [' '])) =
      String.mk (List.replicate 5000 'a') := by
    show String.mk (trimChars (List.replicate 5000 'a' ++ [' '])) = _
    unfold trimChars
    have hl : stripLeading (List.replicate 5000 'a' ++ [' ']) =
        List.replicate 5000 'a' ++ [' '] := by
      rw [show (5000 : Nat) = 4999 + 1 from rfl, List.replicate_succ, List.cons_append]
      exact List.dropWhile_cons_of_neg (by decide)
    rw [hl]
    exact congrArg String.mk (stripTrailing_append_white (List.replicate 5000 'a') ' '
      (fun a ha => by rw [List.eq_of_mem_replicate ha]; rfl) rfl)
  have h0 : pyStrip (String.mk (List.replicate 5000 'a' ++ [' '])) ≠ "" := by
    rw [hstrip]
    exact mk_replicate_ne_empty 5000 (by omega)
  have h5len : (pyStrip (String.mk (List.replicate 5000 'a' ++ [' ']))).length = 5000 := by
    rw [hstrip,
      show (String.mk (List.replicate 5000 'a')).length = (List.replicate 5000 'a').length from rfl,
      List.length_replicate]
  have h5 : ¬(pyStrip (String.mk (List.replicate 5000 'a' ++ [' ']))).length > 5000 := by
    rw [h5len]
    decide
  have heo2 : english_online_tts (pyStrip (String.mk (List.replicate 5000 'a' ++ [' ']))) []
      ⟨false, []⟩ =
      ⟨Except.error "No internet connection available for online TTS", [], 0, false⟩ := by
    rw [hstrip]
    simp only [english_online_tts, pyStrip_mk_replicate]
    rw [if_neg (mk_replicate_ne_empty 5000 (by omega))]
    rfl
  refine ⟨by
    rw [show (String.mk (List.replicate 5000 'a' ++ [' '])).length =
        (List.replicate 5000 'a' ++ [' ']).length from rfl,
      List.length_append, List.length_replicate]
    rfl, ?_⟩
  rw [tts_en_online_err_ok _ [] _ "No internet connection available for online TTS"
    ⟨"output/english_offline_1.wav", 2000⟩ h0 h5 (by rw [heo2]) rfl]
  rw [heo2]
  rfl

/-! ## Claim C2 -/

/-- C2: in network-preferred mode, when every attempt of the primary
(network) engine has failed, `text_to_speech` switches exactly once to the
same-language offline engine: a validated fallback result is returned with
the `X-Fallback-Used` marker set (`usedFallback = true`) and exactly one
additional engine invocation; if the fallback also fails no further switch
happens and the surfaced error says `(fallback also failed)`.  Both the
English branch (primary = `english_online_tts`, including its pre-flight
connectivity failure) and the Urdu branch (primary = online
`generate_urdu_tts`) are covered. -/
theorem C2_fallback_exactly_once :
    (∀ text cache env e audio, pyStrip text ≠ "" → ¬(pyStrip text).length > 5000 →
      (english_online_tts (pyStrip text) cache
        ⟨env.netUp, env.gttsAttempts⟩).result = Except.error e →
      env.enOffline = Except.ok audio → 1000 ≤ audio.size →
      text_to_speech text "en" "online" cache env =
        ⟨Except.ok ⟨audio.size, pyEndsWith audio.path ".wav", true⟩,
         (english_online_tts (pyStrip text) cache
           ⟨env.netUp, env.gttsAttempts⟩).cacheAfter,
         (english_online_tts (pyStrip text) cache
           ⟨env.netUp, env.gttsAttempts⟩).engineCalls + 1⟩) ∧
    (∀ text cache env e e2, pyStrip text ≠ "" → ¬(pyStrip text).length > 5000 →
      (english_online_tts (pyStrip text) cache
        ⟨env.netUp, env.gttsAttempts⟩).result = Except.error e →
      env.enOffline = Except.error e2 →
      (text_to_speech text "en" "online" cache env).response =
        Except.error ("TTS failed: " ++ e2 ++ " (fallback also failed)")) ∧
    (∀ text cache env e audio, pyStrip text ≠ "" → ¬(pyStrip text).length > 5000 →
      env.urOnline = Except.error e → env.urOffline = Except.ok audio →
      1000 ≤ audio.size →
      text_to_speech text "ur" "online" cache env =
        ⟨Except.ok ⟨audio.size, pyEndsWith audio.path ".wav", true⟩, cache, 2⟩) ∧
    (∀ text cache env e e2, pyStrip text ≠ "" → ¬(pyStrip text).length > 5000 →
      env.urOnline = Except.error e → env.urOffline = Except.error e2 →
      (text_to_speech text "ur" "online" cache env).response =
        Except.error ("TTS failed: " ++ e2 ++ " (fallback also failed)")) := by
  refine ⟨?_, ?_, ?_, ?_⟩
  · intro text cache env e audio h0 h5 heo hoff hsz
    rw [tts_en_online_err_ok text cache env e audio h0 h5 heo hoff,
      appFinish_ok_of audio true hsz]
  · intro text cache env e e2 h0 h5 heo hoff
    rw [tts_en_online_err_err text cache env e e2 h0 h5 heo hoff]
    rfl
  · intro text cache env e audio h0 h5 hur hoff hsz
    rw [tts_ur_online_err_ok text cache env e audio h0 h5 hur hoff,
      appFinish_ok_of audio true hsz]
  · intro text cache env e e2 h0 h5 hur hoff
    rw [tts_ur_online_err_err text cache env e e2 h0 h5 hur hoff]
    rfl

/-- Witness for `C2_fallback_exactly_once`: with the network down the English
primary engine pre-flight fails and the offline fallback answers with a
2000-byte wav, marked `usedFallback = true`; the Urdu branch behaves the same
with a failing online engine. -/
theorem C2_fallback_exactly_once_witness :
    text_to_speech "hi" "en" "online" []
        ⟨false, [], Except.ok ⟨"english_offline_1.wav", 2000⟩,
         Except.error "u", Except.error "u"⟩ =
      ⟨Except.ok ⟨2000, true, true⟩, [], 1⟩ ∧
    text_to_speech "سلام" "ur" "online" []
        ⟨false, [], Except.error "x",
         Except.error "urdu online failed", Except.ok ⟨"urdu_offline_1.wav", 1500⟩⟩ =
      ⟨Except.ok ⟨1500, true, true⟩, [], 2⟩ :=
  ⟨C2_fallback_exactly_once.1 "hi" []
      ⟨false, [], Except.ok ⟨"english_offline_1.wav", 2000⟩,
       Except.error "u", Except.error "u"⟩
      "No internet connection available for online TTS"
      ⟨"english_offline_1.wav", 2000⟩ (by decide) (by decide) (by decide) rfl
      (by decide),
   C2_fallback_exactly_once.2.2.1 "سلام" []
      ⟨false, [], Except.error "x",
       Except.error "urdu online failed", Except.ok ⟨"urdu_offline_1.wav", 1500⟩⟩
      "urdu online failed" ⟨"urdu_offline_1.wav", 1500⟩
      (by decide) (by decide) rfl rfl (by decide)⟩

/-! ## Claim C3 -/

/-- C3: cache round-trip.  `put(f, a)` followed by `get(f)` returns the same
content; consequently, after any successful non-fallback `/tts` synthesis for
`(text, en)`, a second identical request is answered from the cache — same
size, no fallback marker, cache unchanged, and zero engine invocations. -/
theorem C3_cache_roundtrip :
    (∀ (cache : List (String × String)) (k a : String),
      cacheLookup (cachePut cache k a) k = some a) ∧
    (∀ text cache env env2 ok1,
      (text_to_speech text "en" "online" cache env).response = Except.ok ok1 →
      ok1.usedFallback = false →
      text_to_speech text "en" "online"
          (text_to_speech text "en" "online" cache env).cacheAfter env2 =
        ⟨Except.ok ⟨ok1.size, false, false⟩,
         (text_to_speech text "en" "online" cache env).cacheAfter, 0⟩) := by
  refine ⟨cacheLookup_cachePut, ?_⟩
  intro text cache env env2 ok1 hok hfb
  by_cases h0 : pyStrip text = ""
  · exfalso
    have h1 : text_to_speech text "en" "online" cache env =
        ⟨Except.error "No text provided", cache, 0⟩ := by
      simp only [text_to_speech]
      rw [if_pos h0]
    rw [h1] at hok
    exact Except.noConfusion hok
  · by_cases h5 : (pyStrip text).length > 5000
    · exfalso
      have h1 : text_to_speech text "en" "online" cache env =
          ⟨Except.error "Text too long. Maximum 5000 characters allowed.", cache, 0⟩ := by
        simp only [text_to_speech]
        rw [if_neg h0, if_pos h5]
      rw [h1] at hok
      exact Except.noConfusion hok
    · cases heo : (english_online_tts (pyStrip text) cache
          ⟨env.netUp, env.gttsAttempts⟩).result with
      | error e =>
        exfalso
        cases hoff : env.enOffline with
        | ok audio =>
          rw [tts_en_online_err_ok text cache env e audio h0 h5 heo hoff] at hok
          have hok' : appFinish audio true = Except.ok ok1 := hok
          obtain ⟨hco, _⟩ := appFinish_ok audio true ok1 hok'
          rw [hco] at hfb
          exact Bool.noConfusion hfb
        | error e2 =>
          rw [tts_en_online_err_err text cache env e e2 h0 h5 heo hoff] at hok
          exact Except.noConfusion hok
      | ok content =>
        have h1 := tts_en_online_ok text cache env content h0 h5 heo
        rw [h1] at hok
        have hok' : appFinish ⟨"output/english_online_" ++ pyStrip text ++ ".mp3",
            content.length⟩ false = Except.ok ok1 := hok
        obtain ⟨hco, hsz⟩ := appFinish_ok _ false ok1 hok'
        have hsz' : 1000 ≤ content.length := hsz
        obtain ⟨hlk, hpos⟩ := english_online_ok_lookup (pyStrip text) cache
          ⟨env.netUp, env.gttsAttempts⟩ content heo
        have hcache : (text_to_speech text "en" "online" cache env).cacheAfter =
            (english_online_tts (pyStrip text) cache
              ⟨env.netUp, env.gttsAttempts⟩).cacheAfter := by
          rw [h1]
        have h0' : pyStrip (pyStrip text) ≠ "" := by
          rw [pyStrip_idem]
          exact h0
        have h2 := english_online_cache_hit (pyStrip text)
          ((english_online_tts (pyStrip text) cache
            ⟨env.netUp, env.gttsAttempts⟩).cacheAfter)
          ⟨env2.netUp, env2.gttsAttempts⟩ content h0' hlk hpos
        have heo2 : (english_online_tts (pyStrip text)
            ((english_online_tts (pyStrip text) cache
              ⟨env.netUp, env.gttsAttempts⟩).cacheAfter)
            ⟨env2.netUp, env2.gttsAttempts⟩).result = Except.ok content := by
          rw [h2]
        have h3 := tts_en_online_ok text
          ((english_online_tts (pyStrip text) cache
            ⟨env.netUp, env.gttsAttempts⟩).cacheAfter)
          env2 content h0 h5 heo2
        rw [hcache, h3, h2,
          appFinish_ok_of ⟨"output/english_online_" ++ pyStrip text ++ ".mp3",
            content.length⟩ false hsz',
          hco]
        simp [pyEndsWith_append_mp3_wav]

set_option maxRecDepth 20000 in
/-- Witness for `C3_cache_roundtrip`: a first successful synthesis of `"hey"`
(one gTTS attempt producing 1000 bytes) populates the cache; the identical
second request is served from the cache with no engine call and
`usedFallback = false`. -/
theorem C3_cache_roundtrip_witness :
    text_to_speech "hey" "en" "online"
        (text_to_speech "hey" "en" "online" []
          ⟨true, [Except.ok (String.mk (List.replicate 1000 'x'))],
           Except.error "o", Except.error "o", Except.error "o"⟩).cacheAfter
        ⟨false, [], Except.error "o", Except.error "o", Except.error "o"⟩ =
      ⟨Except.ok ⟨1000, false, false⟩,
       (text_to_speech "hey" "en" "online" []
         ⟨true, [Except.ok (String.mk (List.replicate 1000 'x'))],
          Except.error "o", Except.error "o", Except.error "o"⟩).cacheAfter, 0⟩ :=
  C3_cache_roundtrip.2 "hey" []
    ⟨true, [Except.ok (String.mk (List.replicate 1000 'x'))],
     Except.error "o", Except.error "o", Except.error "o"⟩
    ⟨false, [], Except.error "o", Except.error "o", Except.error "o"⟩
    ⟨1000, false, false⟩ (by decide) rfl

/-! ## Claim C4 -/

/-- C4 counterexample.  The claim says a cache `get` re-validates the stored
artifact against the minimum-size viability threshold, and that a
below-threshold entry is treated as a miss, removed, and never returned.  But
`english_online_tts` only checks `size > 0` on a hit: a 3-byte cached entry —
far below the 500-byte write-time threshold — is returned to the caller, and
a zero-byte entry, while skipped, is *not* removed from the cache (it is still
there after the call fails). -/
theorem C4_counterexample :
    english_online_tts "t" [("t", "abc")] ⟨false, []⟩ =
      ⟨Except.ok "abc", [("t", "abc")], 0, true⟩ ∧
    "abc".length < 500 ∧
    english_online_tts "t" [("t", "")] ⟨false, []⟩ =
      ⟨Except.error "No internet connection available for online TTS",
       [("t", "")], 0, false⟩ :=
  ⟨by decide, by decide, by decide⟩

/-- C4 (amended): on a hit, `get` re-validates only that the stored artifact
is non-empty (`size > 0`): any non-empty entry — even one below the 500-byte
write-time viability threshold — is returned as a hit with no engine call,
and an empty entry is treated as a miss but left in the cache (it is only
ever replaced by a later successful synthesis overwriting the same key). -/
theorem C4_cache_get_validation :
    (∀ cache t env c, pyStrip t ≠ "" → cacheLookup cache t = some c →
      0 < c.length →
      english_online_tts t cache env = ⟨Except.ok c, cache, 0, true⟩) ∧
    (∀ cache t env c, pyStrip t ≠ "" → cacheLookup cache t = some c →
      c.length = 0 → env.netUp = false →
      english_online_tts t cache env =
        ⟨Except.error "No internet connection available for online TTS",
         cache, 0, false⟩) :=
  ⟨fun cache t env c h0 hl hc => english_online_cache_hit t cache env c h0 hl hc,
   fun cache t env c h0 hl hc hn =>
     english_online_empty_hit_netdown t cache env c h0 hl hc hn⟩

/-- Witness for `C4_cache_get_validation` at concrete caches. -/
theorem C4_cache_get_validation_witness :
    english_online_tts "k" [("k", "hello")] ⟨true, []⟩ =
      ⟨Except.ok "hello", [("k", "hello")], 0, true⟩ ∧
    english_online_tts "q" [("q", "")] ⟨false, []⟩ =
      ⟨Except.error "No internet connection available for online TTS",
       [("q", "")], 0, false⟩ :=
  ⟨C4_cache_get_validation.1 [("k", "hello")] "k" ⟨true, []⟩ "hello"
     (by decide) (by decide) (by decide),
   C4_cache_get_validation.2 [("q", "")] "q" ⟨false, []⟩ ""
     (by decide) (by decide) rfl rfl⟩

/-! ## Helper lemmas for the OCR configuration selection (claim C9) -/

theorem runMax_cons (p : String × ℚ) (ps : List (String × ℚ)) (b : ℚ) :
    runMax (p :: ps) b = runMax ps (max b p.2) := rfl

theorem le_runMax_base (ps : List (String × ℚ)) (b : ℚ) : b ≤ runMax ps b := by
  induction ps generalizing b with
  | nil => exact le_refl b
  | cons p ps ih => exact le_trans (le_max_left b p.2) (ih (max b p.2))

theorem mem_le_runMax (ps : List (String × ℚ)) (b : ℚ) (q : String × ℚ)
    (hq : q ∈ ps) : q.2 ≤ runMax ps b := by
  induction ps generalizing b with
  | nil => cases hq
  | cons p ps ih =>
    rcases List.mem_cons.mp hq with h | h
    · rw [h, runMax_cons]
      exact le_trans (le_max_right b p.2) (le_runMax_base ps (max b p.2))
    · rw [runMax_cons]
      exact ih (max b p.2) h

theorem pairsFold_const (ps : List (String × ℚ)) (b : String × ℚ)
    (h : ∀ p ∈ ps, p.2 ≤ b.2) : ps.foldl pairStep b = b := by
  induction ps with
  | nil => rfl
  | cons p ps ih =>
    rw [List.foldl_cons, show pairStep b p = b from by
      unfold pairStep
      rw [if_neg (not_lt.mpr (h p (List.mem_cons_self p ps)))]]
    exact ih (fun q hq => h q (List.mem_cons_of_mem p hq))

/-- The strict-improvement fold over the measured `(text, confidence)` pairs
selects the first pair attaining the running maximum, whenever some pair
strictly beats the seed. -/
theorem pairsFold_first_argmax (ps : List (String × ℚ)) (b : String × ℚ)
    (h : b.2 < runMax ps b.2) :
    ∃ p, ps.find? (fun q => q.2 = runMax ps b.2) = some p ∧
      ps.foldl pairStep b = p := by
  induction ps generalizing b with
  | nil => exact absurd h (lt_irrefl b.2)
  | cons p ps ih =>
    by_cases hb : b.2 < p.2
    · by_cases hmax : p.2 = runMax (p :: ps) b.2
      · refine ⟨p, ?_, ?_⟩
        · simp [List.find?_cons, hmax]
        · rw [List.foldl_cons, show pairStep b p = p from by
            unfold pairStep
            rw [if_pos hb]]
          apply pairsFold_const
          intro q hq
          have h1 : q.2 ≤ runMax (p :: ps) b.2 := by
            rw [runMax_cons]
            exact mem_le_runMax ps (max b.2 p.2) q hq
          rw [← hmax] at h1
          exact h1
      · have hM : runMax (p :: ps) b.2 = runMax ps p.2 := by
          rw [runMax_cons, max_eq_right (le_of_lt hb)]
        have hlt : p.2 < runMax ps p.2 := by
          rcases lt_or_eq_of_le (le_runMax_base ps p.2) with h2 | h2
          · exact h2
          · exact absurd (by rw [hM, ← h2]) hmax
        obtain ⟨q, hfind, hfold⟩ := ih p hlt
        have hne : p.2 ≠ runMax ps p.2 := by
          rw [← hM]
          exact hmax
        refine ⟨q, ?_, ?_⟩
        · rw [hM]
          simp only [List.find?_cons, decide_eq_false hne]
          exact hfind
        · rw [List.foldl_cons, show pairStep b p = p from by
            unfold pairStep
            rw [if_pos hb]]
          exact hfold
    · have hM : runMax (p :: ps) b.2 = runMax ps b.2 := by
        rw [runMax_cons, max_eq_left (not_lt.mp hb)]
      have h' : b.2 < runMax ps b.2 := by
        rw [← hM]
        exact h
      obtain ⟨q, hfind, hfold⟩ := ih b h'
      have hne : p.2 ≠ runMax ps b.2 := by
        intro hc
        have hle : p.2 ≤ b.2 := not_lt.mp hb
        rw [hc] at hle
        exact absurd (lt_of_lt_of_le h' hle) (lt_irrefl b.2)
      refine ⟨q, ?_, ?_⟩
      · rw [hM]
        simp only [List.find?_cons, decide_eq_false hne]
        exact hfind
      · rw [List.foldl_cons, show pairStep b p = b from by
          unfold pairStep
          rw [if_neg hb]]
        exact hfold

/-- When every attempted configuration has measurable confidence, the code's
fold over attempts agrees with the strict-improvement fold over the measured
pairs. -/
theorem ocrFold_measured (l : List OcrAttempt) (b : String × ℚ)
    (h : ∀ o ∈ l, o.confData.isSome) :
    l.foldl ocrStep b = (measuredPairs l).foldl pairStep b := by
  induction l generalizing b with
  | nil => rfl
  | cons o l ih =>
    have hrest : ∀ a ∈ l, a.confData.isSome :=
      fun a ha => h a (List.mem_cons_of_mem o ha)
    obtain ⟨confs, hc⟩ := Option.isSome_iff_exists.mp (h o (List.mem_cons_self o l))
    rcases o with ⟨ot, oc⟩
    have hc' : oc = some confs := hc
    subst hc'
    cases ot with
    | none =>
      rw [List.foldl_cons, show ocrStep b ⟨none, some confs⟩ = b from rfl]
      rw [show measuredPairs (⟨none, some confs⟩ :: l) = measuredPairs l from by
        simp [measuredPairs, List.filterMap_cons]]
      exact ih b hrest
    | some t =>
      by_cases ht : pyStrip t = ""
      · rw [List.foldl_cons,
          show ocrStep b ⟨some t, some confs⟩ = b from if_pos ht]
        rw [show measuredPairs (⟨some t, some confs⟩ :: l) = measuredPairs l from by
          simp [measuredPairs, List.filterMap_cons, ht]]
        exact ih b hrest
      · rw [List.foldl_cons,
          show ocrStep b ⟨some t, some confs⟩ = pairStep b (t, avgConf confs) from by
            show (if pyStrip t = "" then b
              else if b.2 < avgConf confs then (t, avgConf confs) else b) = _
            rw [if_neg ht]
            rfl]
        rw [show measuredPairs (⟨some t, some confs⟩ :: l) =
            (t, avgConf confs) :: measuredPairs l from by
          simp [measuredPairs, List.filterMap_cons, ht]]
        rw [List.foldl_cons]
        exact ih (pairStep b (t, avgConf confs)) hrest

theorem measuredPairs_strip_ne (l : List OcrAttempt) (x : String × ℚ)
    (hx : x ∈ measuredPairs l) : pyStrip x.1 ≠ "" := by
  rcases List.mem_filterMap.mp hx with ⟨o, ho, hfo⟩
  rcases o with ⟨ot, oc⟩
  cases ot with
  | none =>
    cases oc with
    | none =>
      have h' : (none : Option (String × ℚ)) = some x := hfo
      exact absurd h' (by simp)
    | some confs =>
      have h' : (none : Option (String × ℚ)) = some x := hfo
      exact absurd h' (by simp)
  | some t =>
    cases oc with
    | none =>
      have h' : (none : Option (String × ℚ)) = some x := hfo
      exact absurd h' (by simp)
    | some confs =>
      have h' : (if pyStrip t = "" then none
          else some (t, avgConf confs)) = some x := hfo
      by_cases ht : pyStrip t = ""
      · rw [if_pos ht] at h'
        exact absurd h' (by simp)
      · rw [if_neg ht] at h'
        rw [← Option.some.inj h']
        exact ht

/-! ## Claim C9 -/

/-- C9 counterexample.  The claim says the selected result is the one with the
highest measured average per-token confidence, with the length fallback used
only for configurations whose confidence cannot be measured.  But in
`extract_text_from_image`, a later configuration whose confidence measurement
raises replaces the best-so-far purely by trimmed length: with a first
configuration measured at confidence 80 producing `"AAAA"` and a second,
unmeasurable one producing the longer `"BBBBBBBB"` (the remaining two
configurations raising), the selected text is `"BBBBBBBB"`, not the
highest-measured-confidence `"AAAA"`. -/
theorem C9_counterexample :
    selectOcrText [⟨some "AAAA", some [80]⟩, ⟨some "BBBBBBBB", none⟩,
      ⟨none, none⟩, ⟨none, none⟩] = Except.ok "BBBBBBBB" := by
  have havg : avgConf [80] = 80 := by norm_num [avgConf]
  simp only [selectOcrText, List.foldl_cons, List.foldl_nil, ocrStep]
  rw [if_neg (by decide : ¬pyStrip "AAAA" = "")]
  rw [havg]
  rw [if_pos (by norm_num : (("", (0 : ℚ)) : String × ℚ).2 < 80)]
  rw [if_neg (by decide : ¬pyStrip "BBBBBBBB" = "")]
  rw [if_pos (by decide : (pyStrip "AAAA").length < (pyStrip "BBBBBBBB").length)]
  rw [if_neg (by decide : ¬pyStrip "BBBBBBBB" = "")]

/-- C9 (amended): when every attempted configuration has measurable
confidence, the selection is the one the claim describes restricted to a
strictly positive maximum: the selected result is the earliest configuration
attaining the maximal measured average per-token confidence, deterministically
(ties favour the earliest).  When the maximum measured average is zero
(every token confidence non-positive) the call fails with `No text detected`
instead of selecting anything, and an unmeasurable configuration can displace
a measured one by text length alone (see the counterexample). -/
theorem C9_ocr_selection (attempts : List OcrAttempt) (p : String × ℚ)
    (hmeas : ∀ o ∈ attempts, o.confData.isSome)
    (hfind : (measuredPairs attempts).find?
      (fun q => q.2 = runMax (measuredPairs attempts) 0) = some p)
    (hpos : 0 < p.2) :
    selectOcrText attempts = Except.ok p.1 := by
  have hp2 : p.2 = runMax (measuredPairs attempts) 0 := by
    have hps := List.find?_some hfind
    exact of_decide_eq_true hps
  have hmem : p ∈ measuredPairs attempts := List.mem_of_find?_eq_some hfind
  have hlt : (("", (0 : ℚ)) : String × ℚ).2 <
      runMax (measuredPairs attempts) ((("", (0 : ℚ)) : String × ℚ)).2 := by
    show (0 : ℚ) < runMax (measuredPairs attempts) 0
    rw [← hp2]
    exact hpos
  obtain ⟨q, hfq, hfold⟩ :=
    pairsFold_first_argmax (measuredPairs attempts) ("", 0) hlt
  have hfq' : (measuredPairs attempts).find?
      (fun x => x.2 = runMax (measuredPairs attempts) 0) = some q := hfq
  have hq : q = p := Option.some.inj (hfq'.symm.trans hfind)
  unfold selectOcrText
  rw [ocrFold_measured attempts ("", 0) hmeas, hfold, hq]
  rw [if_neg (measuredPairs_strip_ne attempts p hmem)]

/-- Witness for `C9_ocr_selection`: two measured configurations with averages
2 and 1; the earliest maximal one (`"ab"`) is selected. -/
theorem C9_ocr_selection_witness :
    selectOcrText [⟨some "ab", some [2]⟩, ⟨some "cdef", some [1, 1]⟩] =
      Except.ok ("ab", (2 : ℚ)).1 :=
  C9_ocr_selection [⟨some "ab", some [2]⟩, ⟨some "cdef", some [1, 1]⟩]
    ("ab", 2) (by decide)
    (by
      have h1 : avgConf [2] = 2 := by norm_num [avgConf]
      have h2 : avgConf [1, 1] = 1 := by norm_num [avgConf]
      have hmp : measuredPairs [⟨some "ab", some [2]⟩, ⟨some "cdef", some [1, 1]⟩] =
          [("ab", 2), ("cdef", 1)] := by
        simp only [measuredPairs, List.filterMap_cons, List.filterMap_nil]
        rw [if_neg (by decide : ¬pyStrip "ab" = ""),
          if_neg (by decide : ¬pyStrip "cdef" = ""), h1, h2]
      rw [hmp]
      have hrm : runMax [("ab", (2 : ℚ)), ("cdef", 1)] 0 = 2 := by
        simp only [runMax, List.foldl_cons, List.foldl_nil]
        norm_num
      rw [hrm]
      simp [List.find?])
    (by norm_num)

/-! ## Claim C10 -/

/-- C10: Urdu synthesis invoked in local-only (`offline`) mode can perform
network synthesis within the same call.  Concretely: with the pyttsx3 engine
producing a 500-byte (≤ 1000) wav for the text `"سلام"` and the network up,
`generate_urdu_tts` deletes the wav, falls back to the online gTTS engine and
returns the `.mp3` path produced over the network (`viaGtts = true`), even
though the caller requested offline mode. -/
theorem C10_urdu_offline_network_fallback :
    generate_urdu_tts "سلام" "offline" "output/urdu_offline_ab.wav"
        [⟨true, Except.ok 0, OfflineWav.file 500 false, Except.ok 2000⟩] =
      Except.ok ⟨"output/urdu_offline_ab.mp3", 2000, true⟩ ∧
    pyEndsWith "output/urdu_offline_ab.mp3" ".mp3" = true := by
  constructor
  · decide
  · decide
